import Mathlib

/-!
# Verification of the IDAES-PSE state-definition and property-framework logic

This file gives a shallow embedding of the parts of the `idaes-pse`
repository exercised by its test suites: the `FTPx` state definition
(`define_state`), the generic parameter-block construction
(`_phase_component_set`, `phase_equilibrium_idx`), degree-of-freedom
accounting, the save/solve/restore initialization contract, the RPP
saturation-pressure correlation and its temperature derivative, the DMF
property-metadata version indexing, and heat-exchanger configuration
validation.

The Python implementation modules themselves are not part of the source
excerpt; each embedded definition is therefore modelled from the
specification and is pinned against the exact expectations recorded in
the in-repository test files (`test_FTPx.py`, `test_nonvap_PR.py`,
`test_RPP.py`, `test_propindex.py`, `test_heat_exchanger.py`,
`idaes/core/util/testing.py`).
-/

/-! ## FTPx state definition -/

/-- The variables a state block built by `FTPx.define_state` contains,
indexed over a phase type `P` and a component type `C`. -/
inductive FVar (P C : Type) where
  | flow_mol : FVar P C
  | mole_frac_comp (j : C) : FVar P C
  | temperature : FVar P C
  | pressure : FVar P C
  | flow_mol_phase (p : P) : FVar P C
  | mole_frac_phase_comp (p : P) (j : C) : FVar P C
  | phase_frac (p : P) : FVar P C
  deriving DecidableEq, Repr

/-- Symbolic algebraic expressions, mirroring the Pyomo expression trees
whose string forms the FTPx tests compare. -/
inductive FExpr (P C : Type) where
  | const (q : ℚ) : FExpr P C
  | var (v : FVar P C) : FExpr P C
  | add (a b : FExpr P C) : FExpr P C
  | sub (a b : FExpr P C) : FExpr P C
  | mul (a b : FExpr P C) : FExpr P C
  deriving DecidableEq, Repr

/-- Python-style `sum` over a list of expressions: the empty sum is `0`,
otherwise terms are accumulated left to right. -/
def FExpr.sumList {P C : Type} : List (FExpr P C) → FExpr P C
  | [] => FExpr.const 0
  | e :: es => es.foldl FExpr.add e

/-- Configuration data consumed by `FTPx.define_state`: the parameter
block's phase list, component list and phase-component set, the optional
`state_bounds` entries, and the state block's `defined_state` flag. -/
structure FTPxConfig (P C : Type) where
  phase_list : List P
  component_list : List C
  phase_component_set : List (P × C)
  state_bounds_flow_mol : Option (ℚ × ℚ)
  state_bounds_temperature : Option (ℚ × ℚ)
  state_bounds_pressure : Option (ℚ × ℚ)
  defined_state : Bool

/-- Arithmetic midpoint of a bounds pair. -/
def bounds_midpoint (b : ℚ × ℚ) : ℚ := (b.1 + b.2) / 2

/-- Initial value of a state variable: midpoint of its `state_bounds`
entry when one is given, otherwise the stated default. -/
def value_from_bounds (bounds : Option (ℚ × ℚ)) (dflt : ℚ) : ℚ :=
  match bounds with
  | some b => bounds_midpoint b
  | none => dflt

/-- The state block produced by `FTPx.define_state`: the `always_flash`
flag, the initial value (and bounds, where applicable) of each variable
family, and the bodies of each constraint family.  Constraint families
are lists of (index, body) pairs; scalar constraints are an `Option`,
and the `sum_mole_frac` family is indexed by `Option P` because it is a
single unindexed constraint for two phases but per-phase for three or
more. -/
structure StateBlock (P C : Type) where
  always_flash : Bool
  flow_mol_value : ℚ
  flow_mol_bounds : Option (ℚ × ℚ)
  temperature_value : ℚ
  temperature_bounds : Option (ℚ × ℚ)
  pressure_value : ℚ
  pressure_bounds : Option (ℚ × ℚ)
  mole_frac_comp_value : ℚ
  flow_mol_phase_value : ℚ
  flow_mol_phase_bounds : Option (ℚ × ℚ)
  phase_frac_value : ℚ
  mole_frac_phase_comp_value : ℚ
  total_flow_balance : Option (FExpr P C)
  component_flow_balances : List (C × FExpr P C)
  sum_mole_frac : List (Option P × FExpr P C)
  sum_mole_frac_out : Option (FExpr P C)
  phase_fraction_constraint : List (P × FExpr P C)

/-- Bodies of the four balance/phase constraint families built by
`define_state`, by case on the number of phases exactly as the FTPx
tests record them:

* one phase `p1`: `total_flow_balance` body `flow_mol - flow_mol_phase[p1]`,
  `component_flow_balances[j]` body
  `mole_frac_comp[j] - mole_frac_phase_comp[p1, j]`, no `sum_mole_frac`,
  and `phase_fraction_constraint[p]` body `phase_frac[p]` (equated to 1);
* two phases: `total_flow_balance` body
  `sum(flow_mol_phase) - flow_mol`, `component_flow_balances[j]` body
  `flow_mol * mole_frac_comp[j] - sum(flow_mol_phase[p] * mole_frac_phase_comp[p, j])`,
  a single `sum_mole_frac` equating the per-phase component sums, and
  `phase_fraction_constraint[p]` body
  `phase_frac[p] * flow_mol - flow_mol_phase[p]`;
* three or more phases: as for two phases but with no
  `total_flow_balance` and with `sum_mole_frac` indexed per phase, body
  `sum(mole_frac_phase_comp[p, j] for j)` (equated to 1). -/
def define_state_balances {P C : Type} (cfg : FTPxConfig P C) :
    Option (FExpr P C) × List (C × FExpr P C) × List (Option P × FExpr P C)
      × List (P × FExpr P C) :=
  match cfg.phase_list with
  | [p1] =>
      (some (FExpr.sub (FExpr.var FVar.flow_mol)
        (FExpr.var (FVar.flow_mol_phase p1))),
       cfg.component_list.map (fun j =>
        (j, FExpr.sub (FExpr.var (FVar.mole_frac_comp j))
              (FExpr.var (FVar.mole_frac_phase_comp p1 j)))),
       [],
       [(p1, FExpr.var (FVar.phase_frac p1))])
  | [p1, p2] =>
      (some (FExpr.sub
        (FExpr.sumList ([p1, p2].map (fun p => FExpr.var (FVar.flow_mol_phase p))))
        (FExpr.var FVar.flow_mol)),
       cfg.component_list.map (fun j =>
        (j, FExpr.sub
              (FExpr.mul (FExpr.var FVar.flow_mol) (FExpr.var (FVar.mole_frac_comp j)))
              (FExpr.sumList ([p1, p2].map (fun p =>
                FExpr.mul (FExpr.var (FVar.flow_mol_phase p))
                  (FExpr.var (FVar.mole_frac_phase_comp p j))))))),
       [(none, FExpr.sub
          (FExpr.sumList (cfg.component_list.map (fun j =>
            FExpr.var (FVar.mole_frac_phase_comp p1 j))))
          (FExpr.sumList (cfg.component_list.map (fun j =>
            FExpr.var (FVar.mole_frac_phase_comp p2 j)))))],
       [p1, p2].map (fun p =>
        (p, FExpr.sub
              (FExpr.mul (FExpr.var (FVar.phase_frac p)) (FExpr.var FVar.flow_mol))
              (FExpr.var (FVar.flow_mol_phase p)))))
  | ps =>
      (none,
       cfg.component_list.map (fun j =>
        (j, FExpr.sub
              (FExpr.mul (FExpr.var FVar.flow_mol) (FExpr.var (FVar.mole_frac_comp j)))
              (FExpr.sumList (ps.map (fun p =>
                FExpr.mul (FExpr.var (FVar.flow_mol_phase p))
                  (FExpr.var (FVar.mole_frac_phase_comp p j))))))),
       ps.map (fun p =>
        (some p, FExpr.sumList (cfg.component_list.map (fun j =>
          FExpr.var (FVar.mole_frac_phase_comp p j))))),
       ps.map (fun p =>
        (p, FExpr.sub
              (FExpr.mul (FExpr.var (FVar.phase_frac p)) (FExpr.var FVar.flow_mol))
              (FExpr.var (FVar.flow_mol_phase p)))))

/-- Modelled from the spec: `FTPx.define_state` (module
`idaes/generic_models/properties/core/state_definitions/FTPx.py`, absent
from the source excerpt).  Per the spec, the state-definition machinery
"builds the correct set of state variables, material/energy balance
constraints, phase-fraction constraints" and "supports a notion of
always-flash"; every quantitative detail below (initial values, bounds
propagation, constraint bodies, presence of `sum_mole_frac_out`) is
pinned by the assertions of `test_FTPx.py`:

* `always_flash` is always `True`;
* `flow_mol`, `temperature`, `pressure` take the midpoint of their
  `state_bounds` entry, defaulting to `1`, `298.15`, `101325`;
* each `mole_frac_comp` and `mole_frac_phase_comp` starts at
  `1 / (number of components)`;
* each `flow_mol_phase` starts at `flow_mol / (number of phases)` and
  inherits `flow_mol`'s bounds; each `phase_frac` starts at
  `1 / (number of phases)`;
* the balance constraints are as in `define_state_balances`;
* `sum_mole_frac_out` (body: sum of `mole_frac_comp` over all
  components) exists exactly when `defined_state` is `False`. -/
def define_state {P C : Type} (cfg : FTPxConfig P C) : StateBlock P C :=
  let bal := define_state_balances cfg
  { always_flash := true
    flow_mol_value := value_from_bounds cfg.state_bounds_flow_mol 1
    flow_mol_bounds := cfg.state_bounds_flow_mol
    temperature_value := value_from_bounds cfg.state_bounds_temperature 298.15
    temperature_bounds := cfg.state_bounds_temperature
    pressure_value := value_from_bounds cfg.state_bounds_pressure 101325
    pressure_bounds := cfg.state_bounds_pressure
    mole_frac_comp_value := 1 / cfg.component_list.length
    flow_mol_phase_value :=
      value_from_bounds cfg.state_bounds_flow_mol 1 / cfg.phase_list.length
    flow_mol_phase_bounds := cfg.state_bounds_flow_mol
    phase_frac_value := 1 / cfg.phase_list.length
    mole_frac_phase_comp_value := 1 / cfg.component_list.length
    total_flow_balance := bal.1
    component_flow_balances := bal.2.1
    sum_mole_frac := bal.2.2.1
    sum_mole_frac_out :=
      if cfg.defined_state then none
      else some (FExpr.sumList (cfg.component_list.map (fun j =>
        FExpr.var (FVar.mole_frac_comp j))))
    phase_fraction_constraint := bal.2.2.2 }

/-- The two-phase FTPx configuration of the tests: phases `"a"`, `"b"`,
components `1, 2, 3`, all components in all phases. -/
def ftpx_config_2phase (bf bt bp : Option (ℚ × ℚ)) (ds : Bool) :
    FTPxConfig String ℕ :=
  { phase_list := ["a", "b"]
    component_list := [1, 2, 3]
    phase_component_set :=
      [("a", 1), ("a", 2), ("a", 3), ("b", 1), ("b", 2), ("b", 3)]
    state_bounds_flow_mol := bf
    state_bounds_temperature := bt
    state_bounds_pressure := bp
    defined_state := ds }

/-! ## Generic parameter block construction -/

/-- Phase kinds recognised by `valid_phase_types`. -/
inductive PhaseKind where
  | liquid : PhaseKind
  | vapor : PhaseKind
  deriving DecidableEq, Repr

/-- A phase declaration of a generic property-package configuration. -/
structure GPPhase where
  name : String
  kind : PhaseKind
  deriving DecidableEq, Repr

/-- A component declaration of a generic property-package configuration:
its name, an optional `valid_phase_types` restriction (`none` means the
component is valid in every phase), and the list of phase pairs for
which a `phase_equilibrium_form` is declared. -/
structure GPComponent where
  name : String
  valid_phase_kinds : Option PhaseKind
  vle_form_pairs : List (String × String)
  deriving DecidableEq, Repr

/-- A generic property-package configuration (the parts relevant to
phase-component pairing and phase equilibrium). -/
structure GPConfig where
  components : List GPComponent
  phases : List GPPhase
  phases_in_equilibrium : List (String × String)
  deriving DecidableEq, Repr

/-- Whether a component is valid in a phase: unrestricted components are
valid everywhere, restricted ones only in phases of the declared kind. -/
def comp_valid_in (c : GPComponent) (p : GPPhase) : Bool :=
  match c.valid_phase_kinds with
  | none => true
  | some k => p.kind == k

/-- Modelled from the spec: the `_phase_component_set` built by
`GenericParameterBlock` (module
`idaes/generic_models/properties/core/generic/generic_property.py`,
absent from the source excerpt).  Per the spec the framework is "given a
configuration of components, phases, and an equation-of-state" and
builds the state variables over valid phase-component pairs; the
pairing is pinned by `test_nonvap_PR.py::TestParamBlock.test_build`: a
pair `(p, j)` is included exactly when component `j` is valid in phase
`p`. -/
def build_phase_component_set (cfg : GPConfig) : List (String × String) :=
  cfg.phases.flatMap (fun p =>
    (cfg.components.filter (fun c => comp_valid_in c p)).map
      (fun c => (p.name, c.name)))

/-- Modelled from the spec: the `phase_equilibrium_list` built by
`GenericParameterBlock` (same missing module as
`build_phase_component_set`).  For each phase pair in
`phases_in_equilibrium`, each component that is valid in both phases of
the pair and declares a `phase_equilibrium_form` for it contributes one
equilibrium entry; entries are labelled `PE1`, `PE2`, ... in order, as
pinned by `test_nonvap_PR.py::TestParamBlock.test_build`. -/
def build_phase_equilibrium_list (cfg : GPConfig) :
    List (String × (String × (String × String))) :=
  let pcs := build_phase_component_set cfg
  let entries := cfg.phases_in_equilibrium.flatMap (fun pp =>
    (cfg.components.filter (fun c =>
      pcs.contains (pp.1, c.name) && pcs.contains (pp.2, c.name) &&
        c.vle_form_pairs.contains pp)).map (fun c => (c.name, pp)))
  entries.enum.map (fun ie => ("PE" ++ toString (ie.1 + 1), ie.2))

/-- The `phase_equilibrium_idx` index set: the labels of
`build_phase_equilibrium_list`. -/
def build_phase_equilibrium_idx (cfg : GPConfig) : List String :=
  (build_phase_equilibrium_list cfg).map (fun e => e.1)

/-- The benzene/toluene/l_only configuration of `test_nonvap_PR.py`:
benzene and toluene are unrestricted and have a `log_fugacity`
`phase_equilibrium_form` for `("Vap", "Liq")`; `l_only` is restricted to
liquid phases and has no equilibrium form.  Phases are `Liq` (liquid)
and `Vap` (vapor), with `phases_in_equilibrium = [("Vap", "Liq")]`. -/
def nonvap_configuration : GPConfig :=
  { components :=
      [⟨"benzene", none, [("Vap", "Liq")]⟩,
       ⟨"toluene", none, [("Vap", "Liq")]⟩,
       ⟨"l_only", some PhaseKind.liquid, []⟩]
    phases := [⟨"Liq", PhaseKind.liquid⟩, ⟨"Vap", PhaseKind.vapor⟩]
    phases_in_equilibrium := [("Vap", "Liq")] }

/-! ## Degrees of freedom for the non-vapourisable PR state block -/

/-- Number of constraints held by an FTPx state block (each list entry
and each present scalar constraint counts once). -/
def state_block_constraint_count {P C : Type} (blk : StateBlock P C) : ℕ :=
  blk.total_flow_balance.toList.length + blk.component_flow_balances.length +
    blk.sum_mole_frac.length + blk.sum_mole_frac_out.toList.length +
    blk.phase_fraction_constraint.length

/-- The variables of an FTPx state block together with their fixed
flags: the state variables `flow_mol`, `temperature`, `pressure` and
`mole_frac_comp[j]` carry the flag `fixed_state`; the remaining
variables (`flow_mol_phase`, `mole_frac_phase_comp`, `phase_frac`) are
never fixed by the tests. -/
def state_block_variables {P C : Type} (cfg : FTPxConfig P C)
    (fixed_state : Bool) : List (FVar P C × Bool) :=
  [(FVar.flow_mol, fixed_state), (FVar.temperature, fixed_state),
   (FVar.pressure, fixed_state)] ++
    cfg.component_list.map (fun j => (FVar.mole_frac_comp j, fixed_state)) ++
    cfg.phase_list.map (fun p => (FVar.flow_mol_phase p, false)) ++
    cfg.phase_component_set.map
      (fun pj => (FVar.mole_frac_phase_comp pj.1 pj.2, false)) ++
    cfg.phase_list.map (fun p => (FVar.phase_frac p, false))

/-- Degrees of freedom, as the spec glossary defines it: the count of
unfixed variables minus the count of equality constraints. -/
def degrees_of_freedom {V : Type} (vars : List (V × Bool))
    (constraint_count : ℕ) : ℤ :=
  ((vars.filter (fun v => !v.2)).length : ℤ) - (constraint_count : ℤ)

/-- The FTPx configuration that `build_state_block` derives from
`nonvap_configuration` with `defined_state = True`: two phases, three
components, the five-pair `_phase_component_set` built by the parameter
block, and the configured state bounds. -/
def nonvap_ftpx_config : FTPxConfig String String :=
  { phase_list := ["Liq", "Vap"]
    component_list := ["benzene", "toluene", "l_only"]
    phase_component_set := build_phase_component_set nonvap_configuration
    state_bounds_flow_mol := some (0, 1000)
    state_bounds_temperature := some (273.15, 450)
    state_bounds_pressure := some (5e4, 1e6)
    defined_state := true }

/-- Modelled from the spec: total equality-constraint count of the
non-vapourisable PR state block.  The FTPx constraints come from
`define_state`; per the spec the framework additionally builds
"bubble/dew-point equilibrium relations", which contribute one
equilibrium constraint per `phase_equilibrium_idx` entry.  The auxiliary
quantities of the smooth-VLE formulation (equilibrium temperature,
bubble/dew temperatures and compositions) each come paired with exactly
one defining equality constraint, so they cancel in the
degrees-of-freedom count and are omitted from both sides. -/
def nonvap_constraint_count : ℕ :=
  state_block_constraint_count (define_state nonvap_ftpx_config) +
    (build_phase_equilibrium_idx nonvap_configuration).length

/-! ## Initialization contract (save / solve / restore) -/

/-- A model variable: identifier, current value, fixed flag. -/
structure MVar where
  vid : ℕ
  value : ℚ
  fixed : Bool
  deriving DecidableEq, Repr

/-- A model constraint: identifier and active flag. -/
structure MCon where
  cid : ℕ
  active : Bool
  deriving DecidableEq, Repr

/-- A model as the statistics utilities see it: a list of variables with
fixed flags and a list of constraints with active flags. -/
structure PModel where
  vars : List MVar
  cons : List MCon
  deriving DecidableEq, Repr

/-- Overwrite the fixed flags of a prefix of a variable list. -/
def set_var_flags : List MVar → List Bool → List MVar
  | [], _ => []
  | vs, [] => vs
  | v :: vs, f :: fs => { v with fixed := f } :: set_var_flags vs fs

/-- Overwrite the values of a prefix of a variable list. -/
def set_var_values : List MVar → List ℚ → List MVar
  | [], _ => []
  | vs, [] => vs
  | v :: vs, q :: qs => { v with value := q } :: set_var_values vs qs

/-- Overwrite the active flags of a prefix of a constraint list. -/
def set_con_flags : List MCon → List Bool → List MCon
  | [], _ => []
  | cs, [] => cs
  | c :: cs, f :: fs => { c with active := f } :: set_con_flags cs fs

/-- `fixed_variables_set`: identifiers of the fixed variables, as in
`idaes.core.util.model_statistics`. -/
def fixed_variables_set (m : PModel) : List ℕ :=
  ((m.vars.map (fun v => (v.vid, v.fixed))).filter (fun x => x.2)).map
    (fun x => x.1)

/-- `activated_constraints_set`: identifiers of the active constraints. -/
def activated_constraints_set (m : PModel) : List ℕ :=
  ((m.cons.map (fun c => (c.cid, c.active))).filter (fun x => x.2)).map
    (fun x => x.1)

/-- Modelled from the spec: the `initialize` routine of the IDAES models
covered by the initialization tests (the concrete `initialize`
implementations are absent from the source excerpt).  Per the contract
documented by `idaes/core/util/testing.py::initialization_tester`
("checks that the initialization method runs as expected and that the
state of the model (active/deactive and fixed/unfixed) remains the
same"), initialization (1) saves the fixed and active flags, (2) fixes
or unfixes variables and activates or deactivates constraints according
to its internal plan while solving, updating variable values, and (3)
restores the saved flags before returning.  `fix_plan` and `act_plan`
are the routine's arbitrary internal flag manipulations and `solve` is
the arbitrary value update computed by the external solver. -/
def init_routine (fix_plan act_plan : List Bool)
    (solve : List MVar → List ℚ) (m : PModel) : PModel :=
  let saved_fixed := m.vars.map (fun v => v.fixed)
  let saved_active := m.cons.map (fun c => c.active)
  let held_vars := set_var_flags m.vars fix_plan
  let held_cons := set_con_flags m.cons act_plan
  let solved_vars := set_var_values held_vars (solve held_vars)
  { vars := set_var_flags solved_vars saved_fixed
    cons := set_con_flags held_cons saved_active }

/-! ## DMF property-metadata version indexing -/

/-- The role a resource plays in a relation. -/
inductive DmfRole where
  | subj : DmfRole
  | obj : DmfRole
  deriving DecidableEq, Repr

/-- A relation record stored on a resource: role of this resource,
predicate name, and the identifier of the other resource. -/
structure DmfRelation where
  role : DmfRole
  predicate : String
  identifier : ℕ
  deriving DecidableEq, Repr

/-- A DMF resource: identifier, code version, and relation records. -/
structure DmfResource where
  rid : ℕ
  version : ℕ × ℕ × ℕ
  relations : List DmfRelation
  deriving DecidableEq, Repr

/-- The DMF store restricted to the resources of one indexed package. -/
structure DmfStore where
  resources : List DmfResource
  next_id : ℕ
  deriving DecidableEq, Repr

/-- The empty DMF store. -/
def DmfStore.empty : DmfStore := ⟨[], 0⟩

/-- Modelled from the spec: `index_property_metadata` of
`idaes/dmf/propindex.py` (absent from the source excerpt; the spec
records "DMF property-metadata indexing/relation tests").  Behaviour is
pinned by `test_propindex.py::test_index_multiple_versions`: indexing a
package whose version is already stored changes nothing; indexing a new
version adds one resource and records a bidirectional `version`
relation between the new resource (as subject, pointing at its
predecessor) and the most recently stored resource (as object, pointed
at by its successor). -/
def index_property_metadata (d : DmfStore) (v : ℕ × ℕ × ℕ) : DmfStore :=
  if d.resources.any (fun r => decide (r.version = v)) then d
  else
    match d.resources.getLast? with
    | none =>
        { resources := d.resources ++ [⟨d.next_id, v, []⟩]
          next_id := d.next_id + 1 }
    | some prev =>
        { resources :=
            (d.resources.map (fun r =>
              if r.rid = prev.rid then
                { r with relations :=
                    r.relations ++ [⟨DmfRole.obj, "version", d.next_id⟩] }
              else r)) ++
              [⟨d.next_id, v, [⟨DmfRole.subj, "version", prev.rid⟩]⟩]
          next_id := d.next_id + 1 }

/-! ## Heat exchanger configuration validation -/

/-- Errors raised while processing a `HeatExchanger` configuration,
mirroring the Python exception types the tests expect. -/
inductive HXBuildError where
  | key_error (key : String) : HXBuildError
  | name_error (name : String) : HXBuildError
  deriving DecidableEq, Repr

/-- A built heat-exchanger unit: the resolved side names. -/
structure HeatExchangerUnit where
  hot_side_name : String
  cold_side_name : String
  deriving DecidableEq, Repr

/-- The configuration options `HeatExchanger` declares (per the config
checks of `test_heat_exchanger.py::test_config`). -/
def hx_declared_options : List String :=
  ["dynamic", "has_holdup", "hot_side_name", "cold_side_name",
   "delta_temperature_callback", "flow_pattern", "shell", "tube"]

/-- Modelled from the spec: construction of a `HeatExchanger` unit
(module `idaes/generic_models/unit_models/heat_exchanger.py`, absent
from the source excerpt; the spec describes unit models as
"configuration-driven assembly" with thin wrappers over the modeling
library's config system).  Behaviour is pinned by
`test_heat_exchanger.py`: setting a configuration key that was never
declared raises `KeyError`; naming the cold side the same as the hot
side (default name `"shell"`) raises `NameError`; otherwise the unit is
created with the resolved side names. -/
def heat_exchanger_build (cfg : List (String × String)) :
    Except HXBuildError HeatExchangerUnit :=
  match cfg.find? (fun kv => !(hx_declared_options.contains kv.1)) with
  | some kv => Except.error (HXBuildError.key_error kv.1)
  | none =>
      let hot := ((cfg.lookup "hot_side_name").getD "shell")
      let cold := ((cfg.lookup "cold_side_name").getD "tube")
      if cold = hot then Except.error (HXBuildError.name_error cold)
      else Except.ok ⟨hot, cold⟩

/-! ## RPP saturation pressure correlation -/

/-- The reduced-coordinate polynomial of the RPP saturation-pressure
correlation: `A*x + B*x^1.5 + C*x^3 + D*x^6`. -/
noncomputable def rpp_psat_sum (A B C D x : ℝ) : ℝ :=
  A * x + B * x ^ (1.5 : ℝ) + C * x ^ 3 + D * x ^ 6

/-- Derivative of `rpp_psat_sum` with respect to `x`. -/
noncomputable def rpp_psat_sum_deriv (A B C D x : ℝ) : ℝ :=
  A + 1.5 * B * x ^ (0.5 : ℝ) + 3 * C * x ^ 2 + 6 * D * x ^ 5

/-- Modelled from the spec: `pressure_sat_comp.return_expression` of
`idaes/generic_models/properties/core/pure/RPP.py` (absent from the
source excerpt; the spec names the Reid-Prausnitz-Poling
"thermodynamic property correlations").  The RPP 4th-edition saturation
pressure correlation: with `x = 1 - T/Tc`,
`Psat = Pc * exp((1-x)^-1 * (A*x + B*x^1.5 + C*x^3 + D*x^6))`. -/
noncomputable def pressure_sat_return_expression
    (A B C D Tc Pc T : ℝ) : ℝ :=
  Pc * Real.exp ((1 - (1 - T / Tc))⁻¹ *
    rpp_psat_sum A B C D (1 - T / Tc))

/-- Modelled from the spec: `pressure_sat_comp.dT_expression` of the
same missing module; per the spec and
`test_RPP.py::test_pressure_sat_comp_dT` it is the analytic temperature
derivative of `pressure_sat_return_expression`: with `x = 1 - T/Tc`,
`dPsat/dT = -Psat * ((Tc/T^2) * (A*x + B*x^1.5 + C*x^3 + D*x^6)
+ (A + 1.5*B*x^0.5 + 3*C*x^2 + 6*D*x^5)/T)`. -/
noncomputable def pressure_sat_dT_expression (A B C D Tc Pc T : ℝ) : ℝ :=
  -(pressure_sat_return_expression A B C D Tc Pc T) *
    ((Tc / T ^ 2) * rpp_psat_sum A B C D (1 - T / Tc) +
      rpp_psat_sum_deriv A B C D (1 - T / Tc) / T)

/-! ## Theorems -/

/-- C1: for an FTPx state block over two phases (`"a"`, `"b"`) and
components `{1, 2, 3}` (any bounds, any `defined_state`), `define_state`
builds exactly: a single `total_flow_balance` with body
`flow_mol_phase[a] + flow_mol_phase[b] - flow_mol`; one
`component_flow_balances` constraint per component `j` with body
`flow_mol * mole_frac_comp[j] - (flow_mol_phase[a] * mole_frac_phase_comp[a,j]
+ flow_mol_phase[b] * mole_frac_phase_comp[b,j])`; a single
`sum_mole_frac` constraint equating the component sums of
`mole_frac_phase_comp` between the two phases; and one
`phase_fraction_constraint` per phase `p` with body
`phase_frac[p] * flow_mol - flow_mol_phase[p]`. -/
theorem ftpx_two_phase_balance_constraints (bf bt bp : Option (ℚ × ℚ))
    (ds : Bool) :
    (define_state (ftpx_config_2phase bf bt bp ds)).total_flow_balance =
      some (.sub (.add (.var (.flow_mol_phase "a")) (.var (.flow_mol_phase "b")))
        (.var .flow_mol)) ∧
    (define_state (ftpx_config_2phase bf bt bp ds)).component_flow_balances =
      [(1, .sub (.mul (.var .flow_mol) (.var (.mole_frac_comp 1)))
          (.add (.mul (.var (.flow_mol_phase "a")) (.var (.mole_frac_phase_comp "a" 1)))
            (.mul (.var (.flow_mol_phase "b")) (.var (.mole_frac_phase_comp "b" 1))))),
       (2, .sub (.mul (.var .flow_mol) (.var (.mole_frac_comp 2)))
          (.add (.mul (.var (.flow_mol_phase "a")) (.var (.mole_frac_phase_comp "a" 2)))
            (.mul (.var (.flow_mol_phase "b")) (.var (.mole_frac_phase_comp "b" 2))))),
       (3, .sub (.mul (.var .flow_mol) (.var (.mole_frac_comp 3)))
          (.add (.mul (.var (.flow_mol_phase "a")) (.var (.mole_frac_phase_comp "a" 3)))
            (.mul (.var (.flow_mol_phase "b")) (.var (.mole_frac_phase_comp "b" 3)))))] ∧
    (define_state (ftpx_config_2phase bf bt bp ds)).sum_mole_frac =
      [(none, .sub
        (.add (.add (.var (.mole_frac_phase_comp "a" 1))
          (.var (.mole_frac_phase_comp "a" 2))) (.var (.mole_frac_phase_comp "a" 3)))
        (.add (.add (.var (.mole_frac_phase_comp "b" 1))
          (.var (.mole_frac_phase_comp "b" 2))) (.var (.mole_frac_phase_comp "b" 3))))] ∧
    (define_state (ftpx_config_2phase bf bt bp ds)).phase_fraction_constraint =
      [("a", .sub (.mul (.var (.phase_frac "a")) (.var .flow_mol))
          (.var (.flow_mol_phase "a"))),
       ("b", .sub (.mul (.var (.phase_frac "b")) (.var .flow_mol))
          (.var (.flow_mol_phase "b")))] :=
  ⟨rfl, rfl, rfl, rfl⟩

/-- C2: for every FTPx configuration (any phase list, component list,
bounds), `define_state` adds `sum_mole_frac_out` with body the sum of
`mole_frac_comp` over all components exactly when `defined_state` is
`False`, and omits it when `defined_state` is `True`. -/
theorem ftpx_sum_mole_frac_out_iff_not_defined_state {P C : Type}
    (cfg : FTPxConfig P C) :
    (define_state cfg).sum_mole_frac_out =
      (if cfg.defined_state then none
        else some (FExpr.sumList (cfg.component_list.map (fun j =>
          FExpr.var (FVar.mole_frac_comp j))))) :=
  rfl

/-- C3: for every FTPx configuration, `define_state` sets `always_flash`
to `True`; FTPx never takes a single-phase shortcut. -/
theorem ftpx_always_flash {P C : Type} (cfg : FTPxConfig P C) :
    (define_state cfg).always_flash = true :=
  rfl

/-- C7: with `state_bounds` given for `flow_mol`, `temperature` and
`pressure`, `define_state` initializes each of those variables to the
arithmetic midpoint of its bounds (in particular `100` for `(0, 200)`,
`345` for `(290, 400)`, `3e5` for `(1e5, 5e5)`), and each
`flow_mol_phase` to `flow_mol`'s initial value divided by the number of
phases, with the same bounds as `flow_mol`; with no bounds given,
`flow_mol` starts at `1`, `temperature` at `298.15`, `pressure` at
`101325`, and every mole fraction at `1 / (number of components)`. -/
theorem ftpx_initial_values {P C : Type} (ps : List P) (comps : List C)
    (pcs : List (P × C)) (ds : Bool) (f1 f2 t1 t2 q1 q2 : ℚ) :
    (define_state ⟨ps, comps, pcs, some (f1, f2), some (t1, t2),
        some (q1, q2), ds⟩).flow_mol_value = (f1 + f2) / 2 ∧
    (define_state ⟨ps, comps, pcs, some (f1, f2), some (t1, t2),
        some (q1, q2), ds⟩).temperature_value = (t1 + t2) / 2 ∧
    (define_state ⟨ps, comps, pcs, some (f1, f2), some (t1, t2),
        some (q1, q2), ds⟩).pressure_value = (q1 + q2) / 2 ∧
    (define_state ⟨ps, comps, pcs, some (f1, f2), some (t1, t2),
        some (q1, q2), ds⟩).flow_mol_phase_value =
      (define_state ⟨ps, comps, pcs, some (f1, f2), some (t1, t2),
        some (q1, q2), ds⟩).flow_mol_value / ps.length ∧
    (define_state ⟨ps, comps, pcs, some (f1, f2), some (t1, t2),
        some (q1, q2), ds⟩).flow_mol_phase_bounds = some (f1, f2) ∧
    bounds_midpoint (0, 200) = 100 ∧
    bounds_midpoint (290, 400) = 345 ∧
    bounds_midpoint (1e5, 5e5) = 3e5 ∧
    (define_state ⟨ps, comps, pcs, none, none, none, ds⟩).flow_mol_value = 1 ∧
    (define_state ⟨ps, comps, pcs, none, none, none,
        ds⟩).temperature_value = 298.15 ∧
    (define_state ⟨ps, comps, pcs, none, none, none,
        ds⟩).pressure_value = 101325 ∧
    (define_state ⟨ps, comps, pcs, none, none, none,
        ds⟩).mole_frac_comp_value = 1 / comps.length ∧
    (define_state ⟨ps, comps, pcs, none, none, none,
        ds⟩).mole_frac_phase_comp_value = 1 / comps.length :=
  ⟨rfl, rfl, rfl, rfl, rfl, by norm_num [bounds_midpoint],
   by norm_num [bounds_midpoint], by norm_num [bounds_midpoint],
   rfl, rfl, rfl, rfl, rfl⟩

/-- C6: for the benzene/toluene/l_only configuration, the parameter
block's `_phase_component_set` contains exactly the five pairs
(Liq, benzene), (Liq, toluene), (Liq, l_only), (Vap, benzene),
(Vap, toluene); every pair in it joins a component with a phase the
component is valid in; and `phase_equilibrium_idx` has exactly the two
entries `PE1` (benzene, Vap-Liq) and `PE2` (toluene, Vap-Liq), with no
equilibrium entry for `l_only`. -/
theorem nonvap_phase_component_set_and_equilibrium :
    build_phase_component_set nonvap_configuration =
      [("Liq", "benzene"), ("Liq", "toluene"), ("Liq", "l_only"),
       ("Vap", "benzene"), ("Vap", "toluene")] ∧
    (∀ pr ∈ build_phase_component_set nonvap_configuration,
      ∃ p ∈ nonvap_configuration.phases,
        ∃ c ∈ nonvap_configuration.components,
          p.name = pr.1 ∧ c.name = pr.2 ∧ comp_valid_in c p = true) ∧
    build_phase_equilibrium_idx nonvap_configuration = ["PE1", "PE2"] ∧
    build_phase_equilibrium_list nonvap_configuration =
      [("PE1", ("benzene", ("Vap", "Liq"))),
       ("PE2", ("toluene", ("Vap", "Liq")))] ∧
    (∀ e ∈ build_phase_equilibrium_list nonvap_configuration,
      e.2.1 ≠ "l_only") := by
  refine ⟨rfl, ?_, rfl, rfl, ?_⟩ <;> decide

/-- C4: for the two-phase benzene/toluene/l_only state block with
`defined_state = True`, fixing exactly the state variables `flow_mol`,
`temperature`, `pressure` and `mole_frac_comp` for every component
leaves zero degrees of freedom (unfixed variables minus equality
constraints); leaving those six state variables unfixed leaves six. -/
theorem nonvap_dof_zero_after_fixing_state :
    degrees_of_freedom (state_block_variables nonvap_ftpx_config true)
        nonvap_constraint_count = 0 ∧
    degrees_of_freedom (state_block_variables nonvap_ftpx_config false)
        nonvap_constraint_count = 6 := by
  constructor <;> decide

/-- C9: version indexing of property metadata is idempotent with respect
to version: with resources stored for versions `1.0.0` and `6.6.6`,
indexing version `6.6.6` again changes nothing (still two resources),
while indexing the new version `9.9.0` adds exactly one resource and
produces the chain of bidirectional `version` relations in which each
resource points at its predecessor as subject and is pointed at by its
successor as object. -/
theorem index_property_metadata_version_chain :
    (index_property_metadata (index_property_metadata
        (index_property_metadata DmfStore.empty (1, 0, 0)) (6, 6, 6))
        (6, 6, 6)) =
      index_property_metadata
        (index_property_metadata DmfStore.empty (1, 0, 0)) (6, 6, 6) ∧
    (index_property_metadata (index_property_metadata DmfStore.empty
        (1, 0, 0)) (6, 6, 6)).resources.length = 2 ∧
    (index_property_metadata (index_property_metadata
        (index_property_metadata DmfStore.empty (1, 0, 0)) (6, 6, 6))
        (9, 9, 0)).resources.length = 3 ∧
    (index_property_metadata (index_property_metadata
        (index_property_metadata DmfStore.empty (1, 0, 0)) (6, 6, 6))
        (9, 9, 0)).resources =
      [⟨0, (1, 0, 0), [⟨DmfRole.obj, "version", 1⟩]⟩,
       ⟨1, (6, 6, 6), [⟨DmfRole.subj, "version", 0⟩,
          ⟨DmfRole.obj, "version", 2⟩]⟩,
       ⟨2, (9, 9, 0), [⟨DmfRole.subj, "version", 1⟩]⟩] := by
  refine ⟨?_, ?_, ?_, ?_⟩ <;> decide

/-- Whether building a heat exchanger from a configuration succeeds. -/
def hx_build_ok (cfg : List (String × String)) : Bool :=
  match heat_exchanger_build cfg with
  | Except.ok _ => true
  | Except.error _ => false

/-- C10: constructing a `HeatExchanger` rejects invalid configurations
at build time: a configuration key that is not a declared option yields
a `KeyError` naming the key, and a `cold_side_name` equal to the hot
side's default name `"shell"` yields a `NameError`; in both cases no
unit is created.  A default configuration does build a unit. -/
theorem heat_exchanger_rejects_invalid_config :
    heat_exchanger_build [("bad option", "hot")] =
      Except.error (HXBuildError.key_error "bad option") ∧
    heat_exchanger_build [("cold_side_name", "shell")] =
      Except.error (HXBuildError.name_error "shell") ∧
    hx_build_ok [("bad option", "hot")] = false ∧
    hx_build_ok [("cold_side_name", "shell")] = false ∧
    heat_exchanger_build [] = Except.ok ⟨"shell", "tube"⟩ := by
  refine ⟨rfl, rfl, ?_, ?_, rfl⟩ <;> decide

/-- Updating variable values leaves every (identifier, fixed) pair
unchanged. -/
theorem set_var_values_proj (vs : List MVar) (qs : List ℚ) :
    (set_var_values vs qs).map (fun v => (v.vid, v.fixed)) =
      vs.map (fun v => (v.vid, v.fixed)) := by
  induction vs generalizing qs with
  | nil => cases qs <;> simp [set_var_values]
  | cons v vs ih => cases qs <;> simp [set_var_values, ih]

/-- Updating variable values leaves every identifier unchanged. -/
theorem set_var_values_vid (vs : List MVar) (qs : List ℚ) :
    (set_var_values vs qs).map (fun v => v.vid) =
      vs.map (fun v => v.vid) := by
  induction vs generalizing qs with
  | nil => cases qs <;> simp [set_var_values]
  | cons v vs ih => cases qs <;> simp [set_var_values, ih]

/-- Overwriting fixed flags leaves every identifier unchanged. -/
theorem set_var_flags_vid (vs : List MVar) (fs : List Bool) :
    (set_var_flags vs fs).map (fun v => v.vid) = vs.map (fun v => v.vid) := by
  induction vs generalizing fs with
  | nil => cases fs <;> simp [set_var_flags]
  | cons v vs ih => cases fs <;> simp [set_var_flags, ih]

/-- Restoring the saved fixed flags of `vs` onto any variable list with
the same identifiers reproduces the (identifier, fixed) pairs of `vs`. -/
theorem set_var_flags_restore (ws vs : List MVar)
    (h : ws.map (fun v => v.vid) = vs.map (fun v => v.vid)) :
    (set_var_flags ws (vs.map (fun v => v.fixed))).map
        (fun v => (v.vid, v.fixed)) =
      vs.map (fun v => (v.vid, v.fixed)) := by
  induction ws generalizing vs with
  | nil =>
      have : vs = [] := by
        cases vs with
        | nil => rfl
        | cons v vs => simp at h
      subst this
      simp [set_var_flags]
  | cons w ws ih =>
      cases vs with
      | nil => simp at h
      | cons v vs =>
          simp only [List.map_cons, List.cons.injEq] at h
          simp [set_var_flags, h.1, ih vs h.2]

/-- Overwriting active flags leaves every identifier unchanged. -/
theorem set_con_flags_cid (cs : List MCon) (fs : List Bool) :
    (set_con_flags cs fs).map (fun c => c.cid) = cs.map (fun c => c.cid) := by
  induction cs generalizing fs with
  | nil => cases fs <;> simp [set_con_flags]
  | cons c cs ih => cases fs <;> simp [set_con_flags, ih]

/-- Restoring the saved active flags of `cs` onto any constraint list
with the same identifiers reproduces the (identifier, active) pairs of
`cs`. -/
theorem set_con_flags_restore (bs cs : List MCon)
    (h : bs.map (fun c => c.cid) = cs.map (fun c => c.cid)) :
    (set_con_flags bs (cs.map (fun c => c.active))).map
        (fun c => (c.cid, c.active)) =
      cs.map (fun c => (c.cid, c.active)) := by
  induction bs generalizing cs with
  | nil =>
      have : cs = [] := by
        cases cs with
        | nil => rfl
        | cons c cs => simp at h
      subst this
      simp [set_con_flags]
  | cons b bs ih =>
      cases cs with
      | nil => simp at h
      | cons c cs =>
          simp only [List.map_cons, List.cons.injEq] at h
          simp [set_con_flags, h.1, ih cs h.2]

/-- Lists of constraints with equal (identifier, active) projections
never activate a constraint the other list has deactivated. -/
theorem deactivated_preserved (as bs : List MCon)
    (h : as.map (fun c => (c.cid, c.active)) =
      bs.map (fun c => (c.cid, c.active))) :
    ((as.zip bs).all (fun cc => cc.2.active || !cc.1.active)) = true := by
  induction as generalizing bs with
  | nil => simp
  | cons a as ih =>
      cases bs with
      | nil => simp at h
      | cons b bs =>
          simp only [List.map_cons, List.cons.injEq, Prod.mk.injEq] at h
          simp only [List.zip_cons_cons, List.all_cons, Bool.and_eq_true]
          refine ⟨?_, ih bs h.2⟩
          rw [← h.1.2]
          cases a.active <;> simp

/-- C5: initialization leaves the set of fixed variables and the set of
activated constraints exactly equal to their values before the call
(same identifiers, hence same cardinality and membership), whatever flag
manipulations and solver updates happen internally; in particular every
constraint that was deactivated before the call is still deactivated
afterwards. -/
theorem init_routine_preserves_fixed_and_active (fix_plan act_plan : List Bool)
    (update : List MVar → List ℚ) (m : PModel) :
    fixed_variables_set (init_routine fix_plan act_plan update m) =
      fixed_variables_set m ∧
    activated_constraints_set (init_routine fix_plan act_plan update m) =
      activated_constraints_set m ∧
    (init_routine fix_plan act_plan update m).cons.map
        (fun c => (c.cid, c.active)) =
      m.cons.map (fun c => (c.cid, c.active)) ∧
    (((init_routine fix_plan act_plan update m).cons.zip m.cons).all
      (fun cc => cc.2.active || !cc.1.active)) = true := by
  have hvid : (set_var_values (set_var_flags m.vars fix_plan)
        (update (set_var_flags m.vars fix_plan))).map (fun v => v.vid) =
      m.vars.map (fun v => v.vid) :=
    (set_var_values_vid _ _).trans (set_var_flags_vid _ _)
  have hv : (init_routine fix_plan act_plan update m).vars.map
        (fun v => (v.vid, v.fixed)) =
      m.vars.map (fun v => (v.vid, v.fixed)) :=
    set_var_flags_restore _ _ hvid
  have hc : (init_routine fix_plan act_plan update m).cons.map
        (fun c => (c.cid, c.active)) =
      m.cons.map (fun c => (c.cid, c.active)) :=
    set_con_flags_restore _ _ (set_con_flags_cid m.cons act_plan)
  refine ⟨?_, ?_, hc, deactivated_preserved _ _ hc⟩
  · unfold fixed_variables_set
    rw [hv]
  · unfold activated_constraints_set
    rw [hc]

/-- Derivative of the RPP reduced-coordinate polynomial at any nonzero
point. -/
theorem rpp_psat_sum_hasDerivAt (A B C D x : ℝ) (hx : x ≠ 0) :
    HasDerivAt (fun y => rpp_psat_sum A B C D y)
      (rpp_psat_sum_deriv A B C D x) x := by
  have h15 : HasDerivAt (fun y : ℝ => y ^ (1.5 : ℝ))
      (1.5 * x ^ ((1.5 : ℝ) - 1)) x :=
    Real.hasDerivAt_rpow_const (Or.inl hx)
  have h3 : HasDerivAt (fun y : ℝ => y ^ (3 : ℕ)) (3 * x ^ 2) x := by
    simpa using hasDerivAt_pow 3 x
  have h6 : HasDerivAt (fun y : ℝ => y ^ (6 : ℕ)) (6 * x ^ 5) x := by
    simpa using hasDerivAt_pow 6 x
  have hA : HasDerivAt (fun y : ℝ => A * y) (A * 1) x :=
    (hasDerivAt_id x).const_mul A
  have hcomb := ((hA.add (h15.const_mul B)).add (h3.const_mul C)).add
    (h6.const_mul D)
  have hexp : (1.5 : ℝ) - 1 = (0.5 : ℝ) := by norm_num
  rw [hexp] at hcomb
  convert hcomb using 1
  unfold rpp_psat_sum_deriv
  ring

/-- Derivative of the exponent `(1-x)^-1 * (A*x + B*x^1.5 + C*x^3 +
D*x^6)` of the RPP correlation with respect to temperature. -/
theorem rpp_exponent_hasDerivAt (A B C D Tc T : ℝ) (hT : T ≠ 0)
    (hx : (1 : ℝ) - T / Tc ≠ 0) :
    HasDerivAt (fun t => (1 - (1 - t / Tc))⁻¹ *
        rpp_psat_sum A B C D (1 - t / Tc))
      (Tc * -(T ^ 2)⁻¹ * rpp_psat_sum A B C D (1 - T / Tc) +
        Tc * T⁻¹ * (rpp_psat_sum_deriv A B C D (1 - T / Tc) * -Tc⁻¹)) T := by
  have hfun : (fun t : ℝ => (1 - (1 - t / Tc))⁻¹ *
      rpp_psat_sum A B C D (1 - t / Tc)) =
      (fun t : ℝ => Tc * t⁻¹ * rpp_psat_sum A B C D (1 - t / Tc)) := by
    funext t
    rw [show (1 : ℝ) - (1 - t / Tc) = t / Tc by ring, inv_div, div_eq_mul_inv]
  have hinv : HasDerivAt (fun t : ℝ => Tc * t⁻¹) (Tc * -(T ^ 2)⁻¹) T :=
    (hasDerivAt_inv hT).const_mul Tc
  have hxT : HasDerivAt (fun t : ℝ => 1 - t / Tc) (-Tc⁻¹) T := by
    simpa using ((hasDerivAt_id T).div_const Tc).const_sub 1
  have hS : HasDerivAt (fun t : ℝ => rpp_psat_sum A B C D (1 - t / Tc))
      (rpp_psat_sum_deriv A B C D (1 - T / Tc) * -Tc⁻¹) T :=
    HasDerivAt.comp T (rpp_psat_sum_hasDerivAt A B C D _ hx) hxT
  rw [hfun]
  exact hinv.mul hS

/-- C8: the expression returned by the RPP
`pressure_sat_comp.dT_expression` at any physical temperature
(`0 < T < Tc`) is the derivative with respect to temperature of the
expression returned by `pressure_sat_comp.return_expression` — the
exact statement of which the tested finite-difference agreement at
298.15 K and 373.15 K is a numerical check. -/
theorem pressure_sat_dT_is_derivative (A B C D Tc Pc T : ℝ)
    (hT : 0 < T) (hTc : T < Tc) :
    HasDerivAt (fun t => pressure_sat_return_expression A B C D Tc Pc t)
      (pressure_sat_dT_expression A B C D Tc Pc T) T := by
  have hT0 : T ≠ 0 := ne_of_gt hT
  have hTcpos : (0 : ℝ) < Tc := lt_trans hT hTc
  have hTc0 : Tc ≠ 0 := ne_of_gt hTcpos
  have hxpos : (0 : ℝ) < 1 - T / Tc := by
    have hlt : T / Tc < 1 := (div_lt_one hTcpos).mpr hTc
    linarith
  have hx : (1 : ℝ) - T / Tc ≠ 0 := ne_of_gt hxpos
  have hG := rpp_exponent_hasDerivAt A B C D Tc T hT0 hx
  have hE := hG.exp.const_mul Pc
  convert hE using 1
  unfold pressure_sat_dT_expression pressure_sat_return_expression
  field_simp
  ring

/-- Witness for C8: the hypotheses `0 < T` and `T < Tc` hold at the
concrete point `T = 1`, `Tc = 2`, where the derivative identity is
obtained from `pressure_sat_dT_is_derivative` directly. -/
theorem pressure_sat_dT_is_derivative_witness :
    (0 : ℝ) < 1 ∧ (1 : ℝ) < 2 ∧
      HasDerivAt (fun t => pressure_sat_return_expression 1 1 1 1 2 3 t)
        (pressure_sat_dT_expression 1 1 1 1 2 3 1) 1 :=
  ⟨by norm_num, by norm_num,
    pressure_sat_dT_is_derivative 1 1 1 1 2 3 1 (by norm_num) (by norm_num)⟩
